import Mathlib

set_option maxRecDepth 100000
set_option maxHeartbeats 1000000

/-!
# Verification of the ASO_Wise agent pipeline (`src/aso_wise/agent.py`)

This file is a shallow embedding of the single Python source file
`src/aso_wise/agent.py` of the `aso-agent` repository, together with
theorems settling the specification claims about it.

The Python module consists of
* a retry configuration object (`types.HttpRetryOptions`),
* a pure validator function `validate_app_store_content`,
* four `Agent` declarations wired into a `SequentialAgent` pipeline.

Python strings are embedded as Lean `String`s (`len` is `String.length`,
counting code points, as in Python), Python lists as Lean `List`s, and the
dictionary that `validate_app_store_content` serialises to JSON is embedded
as the structure `ValidationResult` (the `json.dumps` serialisation step is
not modelled; the claims are about the structured content).
-/

namespace AsoWise

/-- Embeds `google.genai.types.HttpRetryOptions` (only the four fields the
source sets). -/
structure HttpRetryOptions where
  attempts : Nat
  exp_base : Nat
  initial_delay : Nat
  http_status_codes : List Nat
deriving Repr, DecidableEq

/-- `retry_config = types.HttpRetryOptions(attempts=5, exp_base=7,
initial_delay=1, http_status_codes=[429, 500, 502, 503, 504])`
(agent.py lines 16-21).  Fields in declaration order:
attempts, exp_base, initial_delay, http_status_codes. -/
def retry_config : HttpRetryOptions :=
  ⟨5, 7, 1, [429, 500, 502, 503, 504]⟩

/-- A single-quote character, written via its code point 39. -/
def squote : String := String.singleton (Char.ofNat 39)

/-- The f-string `f"iOS title too long: {len(title)} chars (max 30)"`. -/
def iosTitleIssue (n : Nat) : String :=
  "iOS title too long: " ++ (toString n ++ " chars (max 30)")

/-- The f-string `f"Android title long: {len(title)} chars (recommended max 30)"`. -/
def androidTitleWarning (n : Nat) : String :=
  "Android title long: " ++ (toString n ++ " chars (recommended max 30)")

/-- The literal `"Title has repeated words (possible keyword stuffing)"`. -/
def keywordStuffingWarning : String :=
  "Title has repeated words (possible keyword stuffing)"

/-- The f-string `f"Discouraged term in title: '{term}'"`. -/
def discouragedTermWarning (term : String) : String :=
  "Discouraged term in title: " ++ (squote ++ (term ++ squote))

/-- The f-string `f"Description short: {len(description)} chars (recommended 500+)"`. -/
def descriptionShortWarning (n : Nat) : String :=
  "Description short: " ++ (toString n ++ " chars (recommended 500+)")

/-- The f-string `f"Description too long: {len(description)} chars (max 4000)"`. -/
def descriptionLongIssue (n : Nat) : String :=
  "Description too long: " ++ (toString n ++ " chars (max 4000)")

/-- Python `str.lower()`: lowercase character by character (the titles the
rules compare against are ASCII, where Python and `Char.toLower` agree). -/
def pyLower (s : String) : String := String.mk (s.data.map Char.toLower)

/-- Python `str.split()` with no argument: split on whitespace and drop
empty pieces, leaving the maximal whitespace-free runs. -/
def pySplit (s : String) : List String :=
  ((s.data.splitOnP Char.isWhitespace).map String.mk).filter (fun w => w != "")

/-- Helper for Python substring containment: does `pat` occur as a
contiguous sublist starting at some position of the second list? -/
def strContainsAux (pat : List Char) : List Char → Bool
  | [] => pat.isEmpty
  | c :: cs => pat.isPrefixOf (c :: cs) || strContainsAux pat cs

/-- Python `sub in s` on strings (substring containment). -/
def pyContains (sub s : String) : Bool := strContainsAux sub.data s.data

/-- The fixed list `prohibited = ["#1", "best", "top rated", "free download"]`
(agent.py line 55). -/
def prohibited : List String := ["#1", "best", "top rated", "free download"]

/-- Rule block, agent.py lines 44-45:
`if store in ["ios", "both"] and len(title) > 30: issues.append(...)`. -/
def iosTitleIssues (title store : String) : List String :=
  if (store = "ios" ∨ store = "both") ∧ 30 < title.length then
    [iosTitleIssue title.length]
  else []

/-- Rule block, agent.py lines 46-47:
`if store in ["android", "both"] and len(title) > 50: warnings.append(...)`. -/
def androidTitleWarnings (title store : String) : List String :=
  if (store = "android" ∨ store = "both") ∧ 50 < title.length then
    [androidTitleWarning title.length]
  else []

/-- Rule block, agent.py lines 50-52: `words = title.lower().split()` and
`if len(words) != len(set(words)): warnings.append(...)`; the cardinality of
the Python set of tokens is the length of the deduplicated token list. -/
def stuffingWarnings (title : String) : List String :=
  if (pySplit (pyLower title)).length ≠ (pySplit (pyLower title)).dedup.length
  then [keywordStuffingWarning] else []

/-- Rule block, agent.py lines 55-58: one warning per prohibited term
occurring as a substring of `title.lower()`, in list order. -/
def discouragedWarnings (title : String) : List String :=
  (prohibited.filter (fun term => pyContains term (pyLower title))).map
    discouragedTermWarning

/-- Rule block, agent.py line 61-62: `if len(description) < 200`. -/
def descriptionShortWarnings (description : String) : List String :=
  if description.length < 200 then
    [descriptionShortWarning description.length]
  else []

/-- Rule block, agent.py lines 63-64: `if len(description) > 4000`. -/
def descriptionLongIssues (description : String) : List String :=
  if 4000 < description.length then
    [descriptionLongIssue description.length]
  else []

/-- The fixed `"recommendations"` list (agent.py lines 72-77). -/
def recommendationsList : List String :=
  ["Use natural language",
   "Focus on user benefits",
   "Include clear call-to-action",
   "Use bullet points for readability"]

/-- The dictionary returned (as JSON) by `validate_app_store_content`
(agent.py lines 66-78).  Fields in declaration order:
valid, issues, warnings, title_length, description_length, recommendations. -/
structure ValidationResult where
  valid : Bool
  issues : List String
  warnings : List String
  title_length : Nat
  description_length : Nat
  recommendations : List String
deriving Repr, DecidableEq

/-- `validate_app_store_content(title, description, store)` (agent.py
lines 28-78).  In the source `store` has default value `"both"`; here it is
an explicit argument.  The `issues` and `warnings` lists are accumulated by
the rule blocks in source order, so each is the concatenation of the
per-rule lists.  `valid` is `len(issues) == 0`. -/
def validate_app_store_content (title description store : String) :
    ValidationResult :=
  let issues := iosTitleIssues title store ++ descriptionLongIssues description
  let warnings :=
    androidTitleWarnings title store ++ stuffingWarnings title ++
      discouragedWarnings title ++ descriptionShortWarnings description
  ⟨issues.length == 0, issues, warnings, title.length, description.length,
    recommendationsList⟩

/-- The two tools passed to agents in the source: `google_search` and the
custom tool `validate_app_store_content`. -/
inductive Tool where
  | google_search : Tool
  | validate_app_store_content : Tool
deriving Repr, DecidableEq

/-- Embeds `google.adk.models.Gemini` (only the two arguments the source
passes: `model` and `retry_options`). -/
structure Gemini where
  model : String
  retry_options : HttpRetryOptions
deriving Repr, DecidableEq

/-- Embeds `google.adk.agents.Agent` (the arguments the source passes:
`name`, `model`, `instruction`, `tools`, `output_key`; the last two default
to the empty list and to none when absent).  Fields in declaration order:
name, model, instruction, tools, output_key. -/
structure Agent where
  name : String
  model : Gemini
  instruction : String
  tools : List Tool
  output_key : Option String
deriving Repr, DecidableEq

/-- `Gemini(model="gemini-2.5-flash-lite", retry_options=retry_config)`,
as passed to each of the four agents. -/
def gemini_flash_lite : Gemini := ⟨"gemini-2.5-flash-lite", retry_config⟩

/-- The instruction string of `keyword_research_agent` (agent.py
lines 89-103), transcribed verbatim. -/
def keyword_researcher_instruction : String :=
  "You are an ASO keyword researcher. Your task:

1. Analyze the app description and category
2. Generate 15-20 relevant keyword ideas
3. Use google_search to research each keyword:
   - Search for \"keyword app\" to see competition
   - Search for \"keyword app store\" to see existing apps
   - Analyze search results to gauge popularity and competition

4. Categorize keywords:
   - Primary (5-7): High relevance, good search presence
   - Secondary (5-8): Medium relevance, moderate competition
   - Long-tail (5-8): Specific phrases, lower competition

Return a structured analysis with keyword recommendations."

/-- The instruction string of `competitor_analysis_agent` (agent.py
lines 112-131), transcribed verbatim. -/
def competitor_analyst_instruction : String :=
  "You are a competitive analysis expert for app stores. Your task:

1. Use google_search to find top competitor apps:
   - Search \"best [category] apps\"
   - Search \"top [category] apps ios/android\"
   - Search for specific app types mentioned in the description

2. Analyze search results to identify:
   - Common keywords in top app titles
   - Popular features mentioned in descriptions
   - Patterns in successful apps
   - Gaps and opportunities

3. Provide insights:
   - What works in this category
   - How to differentiate
   - Unique positioning opportunities

Return a competitive analysis with actionable recommendations."

/-- The instruction string of `content_writer_agent` (agent.py
lines 139-162), transcribed verbatim; it interpolates the context keys
`keyword_research` and `competitor_analysis`. -/
def content_writer_instruction : String :=
  "You are an ASO copywriter. Your task:

1. Review keyword research and competitive analysis from previous agents
2. Create 3 variants of:
   - Title (max 30 chars for iOS, 50 for Android)
   - Subtitle (short value proposition)
   - Description (500-1000 words, keyword-optimized)
   - Backend keywords (comma-separated)

3. Writing principles:
   - Lead with benefits, not features
   - Natural keyword integration
   - Clear call-to-action
   - Scannable format (bullets, short paragraphs)

4. Use validate_app_store_content to check each variant

Return 3 complete variants with strategy explanations.

**Keyword Research:**
{keyword_research}

**Competitor Analysis:**
{competitor_analysis}"

/-- The instruction string of `aggregator_agent` (agent.py lines 171-197),
transcribed verbatim; it interpolates all three context keys. -/
def aso_aggregator_instruction : String :=
  "You are the ASO_Wise final advisor. Review all the research and content variants to provide a comprehensive recommendation.

**Keyword Research:**
{keyword_research}

**Competitor Analysis:**
{competitor_analysis}

**Content Variants:**
{content_variants}

Your task:
1. Analyze all 3 content variants
2. Evaluate each variant based on:
   - Keyword optimization
   - Competitive positioning
   - App store guideline compliance
   - User appeal and clarity

3. Provide a clear recommendation:
   - Which variant is best and why
   - Key strengths of the recommended variant
   - Any final tweaks or suggestions
   - Summary of the overall ASO strategy

4. Present the final recommended listing in a clean, ready-to-use format

Be conversational and explain your reasoning. Help the user understand why this approach will work."

/-- `keyword_research_agent` (agent.py lines 86-104). -/
def keyword_research_agent : Agent :=
  ⟨"keyword_researcher", gemini_flash_lite, keyword_researcher_instruction,
    [Tool.google_search], some "keyword_research"⟩

/-- `competitor_analysis_agent` (agent.py lines 109-132). -/
def competitor_analysis_agent : Agent :=
  ⟨"competitor_analyst", gemini_flash_lite, competitor_analyst_instruction,
    [Tool.google_search], some "competitor_analysis"⟩

/-- `content_writer_agent` (agent.py lines 136-165). -/
def content_writer_agent : Agent :=
  ⟨"content_writer", gemini_flash_lite, content_writer_instruction,
    [Tool.validate_app_store_content], some "content_variants"⟩

/-- `aggregator_agent` (agent.py lines 169-198); no `tools` and no
`output_key` argument is passed in the source. -/
def aggregator_agent : Agent :=
  ⟨"aso_aggregator", gemini_flash_lite, aso_aggregator_instruction, [], none⟩

/-- Embeds `google.adk.agents.SequentialAgent`: a name and the ordered list
of sub-agents, executed in declaration order. -/
structure SequentialAgent where
  name : String
  sub_agents : List Agent
deriving Repr, DecidableEq

/-- `root_agent` (agent.py lines 209-217). -/
def root_agent : SequentialAgent :=
  ⟨"aso_wise",
    [keyword_research_agent, competitor_analysis_agent, content_writer_agent,
      aggregator_agent]⟩

/-- The three context keys produced by pipeline stages (the declared
`output_key`s, in stage order). -/
def contextKeys : List String :=
  ["keyword_research", "competitor_analysis", "content_variants"]

/-- The placeholder text that references context key `key` inside an ADK
instruction template: the key wrapped in curly braces. -/
def placeholder (key : String) : String :=
  "\x7b" ++ (key ++ "\x7d")

/-- The context keys an agent's instruction template references as
placeholders. -/
def referencedKeys (a : Agent) : List String :=
  contextKeys.filter (fun k => pyContains (placeholder k) a.instruction)

/-- A concrete 4001-character description, used to exhibit the
over-the-maximum boundary of the description rule. -/
def sampleLongDescription : String := String.mk (List.replicate 4001 'a')

/-- A concrete 51-character title, used to exhibit the Android title
boundary. -/
def sampleLongTitle : String := String.mk (List.replicate 51 'a')

/-- A concrete 300-character title, used to exhibit that an unknown store
skips the title-length rules for titles of any length. -/
def sampleHugeTitle : String := String.mk (List.replicate 300 'a')

/-! ## Helper lemmas -/

theorem ne_of_take_ne (k : Nat) {a b : String}
    (h : a.data.take k ≠ b.data.take k) : a ≠ b :=
  fun e => h (by rw [e])

theorem take_data_append (p x : String) (k : Nat) (hk : k ≤ p.data.length) :
    (p ++ x).data.take k = p.data.take k := by
  rw [String.data_append, List.take_append_eq_append_take,
    Nat.sub_eq_zero_of_le hk, List.take_zero, List.append_nil]

theorem mem_ite_singleton {α : Type} {x y : α} {c : Prop} [Decidable c] :
    x ∈ (if c then [y] else []) ↔ c ∧ x = y := by
  split_ifs with hc
  · simp [hc]
  · simp [hc]

/-- The distinct rule messages are pairwise different strings, whatever
lengths or terms they record: the two messages start with different
characters. -/
theorem ios_ne_descLong (m n : Nat) :
    iosTitleIssue m ≠ descriptionLongIssue n := by
  apply ne_of_take_ne 1
  simp only [iosTitleIssue, descriptionLongIssue]
  rw [take_data_append _ _ 1 (by decide), take_data_append _ _ 1 (by decide)]
  decide

theorem android_ne_ios (n m : Nat) :
    androidTitleWarning n ≠ iosTitleIssue m := by
  apply ne_of_take_ne 1
  simp only [androidTitleWarning, iosTitleIssue]
  rw [take_data_append _ _ 1 (by decide), take_data_append _ _ 1 (by decide)]
  decide

theorem android_ne_descLong (n m : Nat) :
    androidTitleWarning n ≠ descriptionLongIssue m := by
  apply ne_of_take_ne 1
  simp only [androidTitleWarning, descriptionLongIssue]
  rw [take_data_append _ _ 1 (by decide), take_data_append _ _ 1 (by decide)]
  decide

theorem android_ne_stuffing (n : Nat) :
    androidTitleWarning n ≠ keywordStuffingWarning := by
  apply ne_of_take_ne 1
  simp only [androidTitleWarning, keywordStuffingWarning]
  rw [take_data_append _ _ 1 (by decide)]
  decide

theorem android_ne_discouraged (n : Nat) (t : String) :
    androidTitleWarning n ≠ discouragedTermWarning t := by
  apply ne_of_take_ne 1
  simp only [androidTitleWarning, discouragedTermWarning]
  rw [take_data_append _ _ 1 (by decide), take_data_append _ _ 1 (by decide)]
  decide

theorem android_ne_shortDesc (n m : Nat) :
    androidTitleWarning n ≠ descriptionShortWarning m := by
  apply ne_of_take_ne 1
  simp only [androidTitleWarning, descriptionShortWarning]
  rw [take_data_append _ _ 1 (by decide), take_data_append _ _ 1 (by decide)]
  decide

theorem stuffing_ne_discouraged (t : String) :
    keywordStuffingWarning ≠ discouragedTermWarning t := by
  apply ne_of_take_ne 1
  simp only [keywordStuffingWarning, discouragedTermWarning]
  rw [take_data_append _ _ 1 (by decide)]
  decide

theorem stuffing_ne_shortDesc (m : Nat) :
    keywordStuffingWarning ≠ descriptionShortWarning m := by
  apply ne_of_take_ne 1
  simp only [keywordStuffingWarning, descriptionShortWarning]
  rw [take_data_append _ _ 1 (by decide)]
  decide

theorem discouraged_ne_shortDesc (t : String) (m : Nat) :
    discouragedTermWarning t ≠ descriptionShortWarning m := by
  apply ne_of_take_ne 2
  simp only [discouragedTermWarning, descriptionShortWarning]
  rw [take_data_append _ _ 2 (by decide), take_data_append _ _ 2 (by decide)]
  decide

theorem shortDesc_ne_ios (n m : Nat) :
    descriptionShortWarning n ≠ iosTitleIssue m := by
  apply ne_of_take_ne 1
  simp only [descriptionShortWarning, iosTitleIssue]
  rw [take_data_append _ _ 1 (by decide), take_data_append _ _ 1 (by decide)]
  decide

theorem shortDesc_ne_descLong (n m : Nat) :
    descriptionShortWarning n ≠ descriptionLongIssue m := by
  apply ne_of_take_ne 13
  simp only [descriptionShortWarning, descriptionLongIssue]
  rw [take_data_append _ _ 13 (by decide), take_data_append _ _ 13 (by decide)]
  decide

theorem discouragedTermWarning_injective :
    Function.Injective discouragedTermWarning := by
  intro a b h
  apply String.ext
  have h2 := congrArg String.data h
  simp only [discouragedTermWarning, String.data_append] at h2
  exact List.append_cancel_right
    (List.append_cancel_left (List.append_cancel_left h2))

/-- `len(words) != len(set(words))` holds exactly when some token repeats. -/
theorem length_ne_dedup_length_iff {α : Type} [DecidableEq α] (l : List α) :
    l.length ≠ l.dedup.length ↔ ¬ l.Nodup := by
  constructor
  · intro hne hn
    exact hne (by rw [List.dedup_eq_self.mpr hn])
  · intro hnn heq
    apply hnn
    have hs := List.dedup_sublist l
    have hd := hs.eq_of_length heq.symm
    rw [← hd]
    exact List.nodup_dedup l

/-- Unfolding of the `issues` field of the validator result. -/
theorem validate_issues (t d s : String) :
    (validate_app_store_content t d s).issues =
      iosTitleIssues t s ++ descriptionLongIssues d := rfl

/-- Unfolding of the `warnings` field of the validator result. -/
theorem validate_warnings (t d s : String) :
    (validate_app_store_content t d s).warnings =
      androidTitleWarnings t s ++ stuffingWarnings t ++
        discouragedWarnings t ++ descriptionShortWarnings d := rfl

/-- Unfolding of the `valid` field of the validator result. -/
theorem validate_valid (t d s : String) :
    (validate_app_store_content t d s).valid =
      ((iosTitleIssues t s ++ descriptionLongIssues d).length == 0) := rfl

theorem mem_iosTitleIssues_iff {x : String} (t s : String) :
    x ∈ iosTitleIssues t s ↔
      ((s = "ios" ∨ s = "both") ∧ 30 < t.length) ∧
        x = iosTitleIssue t.length := by
  simp only [iosTitleIssues]
  exact mem_ite_singleton

theorem mem_androidTitleWarnings_iff {x : String} (t s : String) :
    x ∈ androidTitleWarnings t s ↔
      ((s = "android" ∨ s = "both") ∧ 50 < t.length) ∧
        x = androidTitleWarning t.length := by
  simp only [androidTitleWarnings]
  exact mem_ite_singleton

theorem mem_stuffingWarnings_iff {x : String} (t : String) :
    x ∈ stuffingWarnings t ↔
      (pySplit (pyLower t)).length ≠ (pySplit (pyLower t)).dedup.length ∧
        x = keywordStuffingWarning := by
  simp only [stuffingWarnings]
  exact mem_ite_singleton

theorem mem_discouragedWarnings_iff {x : String} (t : String) :
    x ∈ discouragedWarnings t ↔
      ∃ term, term ∈ prohibited ∧ pyContains term (pyLower t) = true ∧
        x = discouragedTermWarning term := by
  simp only [discouragedWarnings, List.mem_map, List.mem_filter]
  constructor
  · rintro ⟨term, ⟨hmem, hc⟩, heq⟩
    exact ⟨term, hmem, hc, heq.symm⟩
  · rintro ⟨term, hmem, hc, heq⟩
    exact ⟨term, ⟨hmem, hc⟩, heq.symm⟩

theorem mem_descriptionShortWarnings_iff {x : String} (d : String) :
    x ∈ descriptionShortWarnings d ↔
      d.length < 200 ∧ x = descriptionShortWarning d.length := by
  simp only [descriptionShortWarnings]
  exact mem_ite_singleton

theorem mem_descriptionLongIssues_iff {x : String} (d : String) :
    x ∈ descriptionLongIssues d ↔
      4000 < d.length ∧ x = descriptionLongIssue d.length := by
  simp only [descriptionLongIssues]
  exact mem_ite_singleton

/-- Membership in the result's `issues` list, split by originating rule. -/
theorem mem_validate_issues {x : String} (t d s : String) :
    x ∈ (validate_app_store_content t d s).issues ↔
      x ∈ iosTitleIssues t s ∨ x ∈ descriptionLongIssues d := by
  rw [validate_issues]
  exact List.mem_append

/-- Membership in the result's `warnings` list, split by originating rule. -/
theorem mem_validate_warnings {x : String} (t d s : String) :
    x ∈ (validate_app_store_content t d s).warnings ↔
      x ∈ androidTitleWarnings t s ∨ x ∈ stuffingWarnings t ∨
        x ∈ discouragedWarnings t ∨ x ∈ descriptionShortWarnings d := by
  rw [validate_warnings]
  simp only [List.mem_append]
  tauto

/-! ## Claim theorems -/

/-- Claim C1, counterexample to the claim as stated: the declared names of
the four pipeline stages are not `keyword_researcher`,
`competitor_analysis`, `content_writer`, `aso_aggregator` — the second
stage is declared with `name="competitor_analyst"` (its `output_key`, not
its name, is `competitor_analysis`). -/
theorem pipeline_stage_names_counterexample :
    root_agent.sub_agents.map Agent.name ≠
      ["keyword_researcher", "competitor_analysis", "content_writer",
        "aso_aggregator"] := by
  decide

/-- Claim C1, amended: the pipeline is the ordered four-stage sequence
`keyword_researcher`, `competitor_analyst`, `content_writer`,
`aso_aggregator`; their declared output keys are, in order,
`keyword_research`, `competitor_analysis`, `content_variants` and none for
the aggregator, the three keys being pairwise distinct; and the context
keys referenced as placeholders by each stage's instruction template are
exactly none for the first two stages, `keyword_research` and
`competitor_analysis` for `content_writer`, and all three for the
aggregator — in every case output keys of strictly earlier stages. -/
theorem pipeline_structure :
    root_agent.sub_agents.map Agent.name =
        ["keyword_researcher", "competitor_analyst", "content_writer",
          "aso_aggregator"] ∧
      root_agent.sub_agents.map Agent.output_key =
        [some "keyword_research", some "competitor_analysis",
          some "content_variants", none] ∧
      contextKeys.Nodup ∧
      root_agent.sub_agents.map referencedKeys =
        [[], [], ["keyword_research", "competitor_analysis"],
          ["keyword_research", "competitor_analysis", "content_variants"]] :=
  ⟨rfl, rfl, by decide, rfl⟩

/-- Claim C2: for every title, description and store, the validator result
has `valid = true` if and only if its list of blocking issues is empty (so
the warnings list has no effect on the flag). -/
theorem valid_iff_no_issues (t d s : String) :
    (validate_app_store_content t d s).valid = true ↔
      (validate_app_store_content t d s).issues = [] := by
  rw [validate_valid, validate_issues, beq_iff_eq, List.length_eq_zero]

/-- Witness for C2 at a concrete input. -/
theorem valid_iff_no_issues_witness :
    (validate_app_store_content "Calm Notes" "short description" "both").valid
      = true :=
  (valid_iff_no_issues "Calm Notes" "short description" "both").mpr (by decide)

/-- Claim C3: with store `ios` or `both`, the result contains the blocking
issue recording the observed title length and the 30-character limit
exactly when the title is longer than 30 characters; when it is not, the
title contributes no blocking issue at all. -/
theorem ios_title_issue_iff (t d s : String) (h : s = "ios" ∨ s = "both") :
    (iosTitleIssue t.length ∈ (validate_app_store_content t d s).issues ↔
        30 < t.length) ∧
      (t.length ≤ 30 →
        (validate_app_store_content t d s).issues = descriptionLongIssues d) := by
  constructor
  · constructor
    · intro hm
      rcases (mem_validate_issues t d s).mp hm with hm | hm
      · exact ((mem_iosTitleIssues_iff t s).mp hm).1.2
      · exact absurd ((mem_descriptionLongIssues_iff d).mp hm).2
          (ios_ne_descLong _ _)
    · intro h30
      apply (mem_validate_issues t d s).mpr
      exact Or.inl ((mem_iosTitleIssues_iff t s).mpr ⟨⟨h, h30⟩, rfl⟩)
  · intro hle
    rw [validate_issues, iosTitleIssues, if_neg, List.nil_append]
    rintro ⟨-, h30⟩
    omega

/-- Witness for C3: a 31-character title with store `ios` yields the
blocking issue. -/
theorem ios_title_issue_iff_witness :
    iosTitleIssue (String.length "abcdefghijklmnopqrstuvwxyz01234") ∈
      (validate_app_store_content "abcdefghijklmnopqrstuvwxyz01234" ""
        "ios").issues :=
  (ios_title_issue_iff "abcdefghijklmnopqrstuvwxyz01234" "" "ios"
    (Or.inl rfl)).1.mpr (by decide)

/-- Claim C4: for every title and store, a description shorter than 200
characters yields the non-blocking short-description warning (never a
blocking issue); one longer than 4000 characters yields the blocking
too-long issue and makes the result invalid; one of exactly 4000
characters contributes no description-length issue, so the result is valid
absent other blocking issues. -/
theorem description_length_rules (t d s : String) :
    (d.length < 200 →
        descriptionShortWarning d.length ∈
            (validate_app_store_content t d s).warnings ∧
          descriptionShortWarning d.length ∉
            (validate_app_store_content t d s).issues) ∧
      (4000 < d.length →
        descriptionLongIssue d.length ∈
            (validate_app_store_content t d s).issues ∧
          (validate_app_store_content t d s).valid = false) ∧
      (d.length = 4000 →
        (validate_app_store_content t d s).issues = iosTitleIssues t s ∧
          (iosTitleIssues t s = [] →
            (validate_app_store_content t d s).valid = true)) := by
  refine ⟨fun hshort => ⟨?_, ?_⟩, fun hlong => ⟨?_, ?_⟩, fun h4000 => ⟨?_, ?_⟩⟩
  · exact (mem_validate_warnings t d s).mpr (Or.inr (Or.inr (Or.inr
      ((mem_descriptionShortWarnings_iff d).mpr ⟨hshort, rfl⟩))))
  · intro hm
    rcases (mem_validate_issues t d s).mp hm with hm | hm
    · exact absurd ((mem_iosTitleIssues_iff t s).mp hm).2
        (shortDesc_ne_ios _ _)
    · exact absurd ((mem_descriptionLongIssues_iff d).mp hm).2
        (shortDesc_ne_descLong _ _)
  · exact (mem_validate_issues t d s).mpr (Or.inr
      ((mem_descriptionLongIssues_iff d).mpr ⟨hlong, rfl⟩))
  · rw [validate_valid, descriptionLongIssues, if_pos hlong]
    simp only [List.length_append, List.length_singleton, beq_eq_false_iff_ne]
    omega
  · rw [validate_issues, descriptionLongIssues, if_neg (by omega),
      List.append_nil]
  · intro hios
    rw [validate_valid, hios, descriptionLongIssues, if_neg (by omega)]
    rfl

/-- Witness for C4: a 4001-character description makes the result
invalid. -/
theorem description_length_rules_witness :
    (validate_app_store_content "Calm Notes" sampleLongDescription
      "both").valid = false := by
  have h : (4000 : Nat) < sampleLongDescription.length := by
    show (4000 : Nat) < (String.mk (List.replicate 4001 'a')).length
    rw [String.length_mk, List.length_replicate]
    decide
  exact ((description_length_rules "Calm Notes" sampleLongDescription
    "both").2.1 h).2

/-- Claim C5: with store `android` or `both`, the validator emits the
non-blocking long-Android-title warning exactly when the title is longer
than 50 characters, and that warning is never a blocking issue (for no
recorded length does it occur in the issues list). -/
theorem android_title_warning_iff (t d s : String)
    (h : s = "android" ∨ s = "both") :
    (androidTitleWarning t.length ∈
        (validate_app_store_content t d s).warnings ↔ 50 < t.length) ∧
      (∀ n, androidTitleWarning n ∉
        (validate_app_store_content t d s).issues) := by
  constructor
  · constructor
    · intro hm
      rcases (mem_validate_warnings t d s).mp hm with hm | hm | hm | hm
      · exact ((mem_androidTitleWarnings_iff t s).mp hm).1.2
      · exact absurd ((mem_stuffingWarnings_iff t).mp hm).2
          (android_ne_stuffing _)
      · rcases (mem_discouragedWarnings_iff t).mp hm with ⟨term, -, -, heq⟩
        exact absurd heq (android_ne_discouraged _ _)
      · exact absurd ((mem_descriptionShortWarnings_iff d).mp hm).2
          (android_ne_shortDesc _ _)
    · intro h50
      exact (mem_validate_warnings t d s).mpr (Or.inl
        ((mem_androidTitleWarnings_iff t s).mpr ⟨⟨h, h50⟩, rfl⟩))
  · intro n hm
    rcases (mem_validate_issues t d s).mp hm with hm | hm
    · exact absurd ((mem_iosTitleIssues_iff t s).mp hm).2 (android_ne_ios _ _)
    · exact absurd ((mem_descriptionLongIssues_iff d).mp hm).2
        (android_ne_descLong _ _)

/-- Witness for C5: a 51-character title with store `android` yields the
warning. -/
theorem android_title_warning_iff_witness :
    androidTitleWarning sampleLongTitle.length ∈
      (validate_app_store_content sampleLongTitle "" "android").warnings := by
  apply (android_title_warning_iff sampleLongTitle "" "android"
    (Or.inl rfl)).1.mpr
  show (50 : Nat) < (String.mk (List.replicate 51 'a')).length
  rw [String.length_mk, List.length_replicate]
  decide

/-- Claim C6: the validator lowercases the title, tokenizes it on
whitespace, and emits the non-blocking keyword-stuffing warning exactly
when some token repeats; and for each term of the fixed list `#1`, `best`,
`top rated`, `free download` it emits the discouraged-term warning naming
that term exactly when the term occurs as a substring of the lowercased
title.  In particular the title `Best App Best` receives both the
repeated-word warning and the discouraged-term warning for `best`. -/
theorem title_word_warnings (t d s : String) :
    (keywordStuffingWarning ∈ (validate_app_store_content t d s).warnings ↔
        ¬ (pySplit (pyLower t)).Nodup) ∧
      (∀ term ∈ prohibited,
        (discouragedTermWarning term ∈
            (validate_app_store_content t d s).warnings ↔
          pyContains term (pyLower t) = true)) := by
  constructor
  · constructor
    · intro hm
      rcases (mem_validate_warnings t d s).mp hm with hm | hm | hm | hm
      · exact absurd ((mem_androidTitleWarnings_iff t s).mp hm).2.symm
          (android_ne_stuffing _)
      · exact (length_ne_dedup_length_iff _).mp
          ((mem_stuffingWarnings_iff t).mp hm).1
      · rcases (mem_discouragedWarnings_iff t).mp hm with ⟨term, -, -, heq⟩
        exact absurd heq (stuffing_ne_discouraged _)
      · exact absurd ((mem_descriptionShortWarnings_iff d).mp hm).2
          (stuffing_ne_shortDesc _)
    · intro hrep
      exact (mem_validate_warnings t d s).mpr (Or.inr (Or.inl
        ((mem_stuffingWarnings_iff t).mpr
          ⟨(length_ne_dedup_length_iff _).mpr hrep, rfl⟩)))
  · intro term hterm
    constructor
    · intro hm
      rcases (mem_validate_warnings t d s).mp hm with hm | hm | hm | hm
      · exact absurd ((mem_androidTitleWarnings_iff t s).mp hm).2.symm
          (android_ne_discouraged _ _)
      · exact absurd ((mem_stuffingWarnings_iff t).mp hm).2.symm
          (stuffing_ne_discouraged _)
      · rcases (mem_discouragedWarnings_iff t).mp hm with ⟨t2, -, hc, heq⟩
        rw [discouragedTermWarning_injective heq]
        exact hc
      · exact absurd ((mem_descriptionShortWarnings_iff d).mp hm).2
          (discouraged_ne_shortDesc _ _)
    · intro hc
      exact (mem_validate_warnings t d s).mpr (Or.inr (Or.inr (Or.inl
        ((mem_discouragedWarnings_iff t).mpr ⟨term, hterm, hc, rfl⟩))))

/-- Witness for C6: the title `Best App Best` receives both the
repeated-word warning and the discouraged-term warning for `best`. -/
theorem title_word_warnings_witness :
    keywordStuffingWarning ∈
        (validate_app_store_content "Best App Best" "" "both").warnings ∧
      discouragedTermWarning "best" ∈
        (validate_app_store_content "Best App Best" "" "both").warnings :=
  ⟨(title_word_warnings "Best App Best" "" "both").1.mpr (by decide),
    ((title_word_warnings "Best App Best" "" "both").2 "best"
      (by decide)).mpr (by decide)⟩

/-- Claim C7: every one of the four pipeline stages is configured with the
same backend retry policy, whose parameters are max attempts 5,
exponential backoff base 7, initial delay 1, and retryable status codes
429, 500, 502, 503, 504. -/
theorem all_stages_share_retry_config :
    root_agent.sub_agents.map (fun a => a.model.retry_options) =
        List.replicate 4 retry_config ∧
      retry_config = ⟨5, 7, 1, [429, 500, 502, 503, 504]⟩ :=
  ⟨rfl, rfl⟩

/-- Claim C8: for every input, the validator result records the exact
title length, the exact description length, and the same fixed ordered
list of four generic recommendation strings. -/
theorem result_always_reports_lengths (t d s : String) :
    (validate_app_store_content t d s).title_length = t.length ∧
      (validate_app_store_content t d s).description_length = d.length ∧
      (validate_app_store_content t d s).recommendations =
        ["Use natural language", "Focus on user benefits",
          "Include clear call-to-action", "Use bullet points for readability"] :=
  ⟨rfl, rfl, rfl⟩

/-- Witness for C8 at a concrete input. -/
theorem result_always_reports_lengths_witness :
    (validate_app_store_content "Calm" "desc" "ios").title_length = 4 :=
  ((result_always_reports_lengths "Calm" "desc" "ios").1).trans (by decide)

/-- Claim C9: for a store argument outside `ios`, `android`, `both`, the
validator (a total function, raising no error) skips both title-length
rules: the blocking issues are exactly the description-length issues
whatever the title, no long-Android-title warning of any recorded length
is emitted, and the result is valid whenever the description is within the
4000-character bound. -/
theorem unknown_store_skips_title_rules (t d s : String)
    (h1 : s ≠ "ios") (h2 : s ≠ "android") (h3 : s ≠ "both") :
    (validate_app_store_content t d s).issues = descriptionLongIssues d ∧
      (∀ n, androidTitleWarning n ∉
        (validate_app_store_content t d s).warnings) ∧
      (d.length ≤ 4000 → (validate_app_store_content t d s).valid = true) := by
  have hios : iosTitleIssues t s = [] := by
    rw [iosTitleIssues, if_neg]
    rintro ⟨h | h, -⟩
    · exact h1 h
    · exact h3 h
  have hand : androidTitleWarnings t s = [] := by
    rw [androidTitleWarnings, if_neg]
    rintro ⟨h | h, -⟩
    · exact h2 h
    · exact h3 h
  refine ⟨?_, ?_, ?_⟩
  · rw [validate_issues, hios, List.nil_append]
  · intro n hm
    rcases (mem_validate_warnings t d s).mp hm with hm | hm | hm | hm
    · rw [hand] at hm
      exact List.not_mem_nil _ hm
    · exact absurd ((mem_stuffingWarnings_iff t).mp hm).2
        (android_ne_stuffing _)
    · rcases (mem_discouragedWarnings_iff t).mp hm with ⟨term, -, -, heq⟩
      exact absurd heq (android_ne_discouraged _ _)
    · exact absurd ((mem_descriptionShortWarnings_iff d).mp hm).2
        (android_ne_shortDesc _ _)
  · intro hle
    rw [validate_valid, hios, descriptionLongIssues, if_neg (by omega)]
    rfl

/-- Witness for C9: store `windows` with a 300-character title still
yields a valid result when the description is within bounds. -/
theorem unknown_store_skips_title_rules_witness :
    (validate_app_store_content sampleHugeTitle "" "windows").valid = true :=
  (unknown_store_skips_title_rules sampleHugeTitle "" "windows" (by decide)
    (by decide) (by decide)).2.2 (by decide)

/-- Claim C10: the discouraged-term rule matches raw substrings of the
lowercased title rather than whole words: in the title `Bestow` the term
`best` occurs only inside a longer word — it is not one of the
whitespace tokens — yet the validator emits the discouraged-term warning
for `best`. -/
theorem discouraged_term_substring_match :
    pyContains "best" (pyLower "Bestow") = true ∧
      "best" ∉ pySplit (pyLower "Bestow") ∧
      discouragedTermWarning "best" ∈
        (validate_app_store_content "Bestow" "" "both").warnings := by
  decide

end AsoWise
